import Mathlib

/-!
Verification development for a Neo4j database client implemented as plain
functions over an explicit context value (src/db-client.ts).  The embedding
models the context/session/transaction/bookmark orchestration engine:
contexts are records, the backend (driver, sessions, transactions) is
represented by numeric handles, and the executor is an instrumented
interpreter that records a trace of the backend calls it performs.
Optional record fields model the distinction between an absent and a set
configuration key, and object-spread merging is modelled field by field
with the right operand winning whenever it is set.
-/

/-- Session default access mode, the string union READ | WRITE of the driver. -/
inductive AccessMode where
  | READ
  | WRITE
deriving DecidableEq, Repr

/-- DbParmsType: Partial record of configuration flags and connection data. -/
structure DbParms where
  dbUrl : Option String := none
  dbName : Option String := none
  dbUser : Option String := none
  dbPass : Option String := none
  readonly : Option Bool := none
  allowwrite : Option Bool := none
  ignoremarks : Option Bool := none
  quiet : Option Bool := none
  log : Option Bool := none
  logresults : Option Bool := none
  help : Option Bool := none
  positionals : Option (List String) := none
deriving DecidableEq, Repr

/-- Driver-level configuration (Config); only the field the client touches. -/
structure DriverParms where
  useBigInt : Option Bool := none
deriving DecidableEq, Repr

/-- SessionConfig: the session-level configuration the client manipulates. -/
structure SessionParms where
  database : Option String := none
  bookmarks : Option (List String) := none
  defaultAccessMode : Option AccessMode := none
deriving DecidableEq, Repr

/-- TransactionConfig: transaction-level configuration, inherited and merged. -/
structure TxnParms where
  timeout : Option Nat := none
deriving DecidableEq, Repr

/-- Flat query statistics object carrying its raw stats map. -/
structure QueryStats where
  rawStats : Option (List (String × Int)) := none
deriving DecidableEq, Repr

/-- Raw result summary as delivered by the driver, before cleanup. -/
structure DbRawSummary where
  counters : Option QueryStats := none
  updateStatistics : Option QueryStats := none
deriving DecidableEq, Repr

/-- Summary after cleanupDbSummary: flat name/number pairs, zero values gone. -/
structure CleanSummary where
  counters : List (String × Int)
  updateStatistics : List (String × Int)
deriving DecidableEq, Repr

/-- DbContextType: the central context record.  Driver, session and
transaction handles are numeric identifiers; null handles are `none`. -/
structure DbContext where
  dbParms : DbParms
  dbDriverParms : DriverParms
  dbSessionParms : SessionParms
  dbTxnParms : TxnParms
  dbDriver : Option Nat
  dbSession : Option Nat
  dbTxn : Option Nat
  dbMarks : Option (List String)
  dbSummary : Option CleanSummary
deriving DecidableEq, Repr

/-- DbContextOrParmsType: Partial of context and parms; a bare-parms value
has `dbParms = none` and carries its flags in `bare`, mirroring how the
source reads `dbContext.dbParms ?? dbContext`. -/
structure DbContextOrParms where
  bare : DbParms := {}
  dbParms : Option DbParms := none
  dbDriverParms : Option DriverParms := none
  dbSessionParms : Option SessionParms := none
  dbTxnParms : Option TxnParms := none
  dbDriver : Option Nat := none
  dbMarks : Option (List String) := none
deriving DecidableEq, Repr

/-- View a full context as a context-or-parms argument (the fields
newDbContext reads from its first argument). -/
def DbContextOrParms.ofContext (db : DbContext) : DbContextOrParms :=
  { bare := {}
    dbParms := some db.dbParms
    dbDriverParms := some db.dbDriverParms
    dbSessionParms := some db.dbSessionParms
    dbTxnParms := some db.dbTxnParms
    dbDriver := db.dbDriver
    dbMarks := db.dbMarks }

/-- Truthiness of an optional boolean flag: absent and false are falsy. -/
def flagSet (o : Option Bool) : Bool :=
  o.getD false

/-- Object-spread merge of two parms records; the right operand wins on
every key it carries. -/
def mergeParms (a b : DbParms) : DbParms :=
  { dbUrl := b.dbUrl <|> a.dbUrl
    dbName := b.dbName <|> a.dbName
    dbUser := b.dbUser <|> a.dbUser
    dbPass := b.dbPass <|> a.dbPass
    readonly := b.readonly <|> a.readonly
    allowwrite := b.allowwrite <|> a.allowwrite
    ignoremarks := b.ignoremarks <|> a.ignoremarks
    quiet := b.quiet <|> a.quiet
    log := b.log <|> a.log
    logresults := b.logresults <|> a.logresults
    help := b.help <|> a.help
    positionals := b.positionals <|> a.positionals }

/-- Object-spread merge of driver configuration. -/
def mergeDriverParms (a b : DriverParms) : DriverParms :=
  { useBigInt := b.useBigInt <|> a.useBigInt }

/-- Object-spread merge of session configuration. -/
def mergeSessionParms (a b : SessionParms) : SessionParms :=
  { database := b.database <|> a.database
    bookmarks := b.bookmarks <|> a.bookmarks
    defaultAccessMode := b.defaultAccessMode <|> a.defaultAccessMode }

/-- Object-spread merge of transaction configuration. -/
def mergeTxnParms (a b : TxnParms) : TxnParms :=
  { timeout := b.timeout <|> a.timeout }

/-- setDbSessionParmsDefaultAccessMode: ensure the session default access
mode respects the parms settings.  The source checks allowwrite first,
then readonly, and otherwise leaves the driver default untouched. -/
def setDbSessionParmsDefaultAccessMode (db : DbContext) : DbContext :=
  if flagSet db.dbParms.allowwrite then
    { db with dbSessionParms := { db.dbSessionParms with defaultAccessMode := some .WRITE } }
  else if flagSet db.dbParms.readonly then
    { db with dbSessionParms := { db.dbSessionParms with defaultAccessMode := some .READ } }
  else
    db

/-- newDbDriver: applies the useBigInt default to the driver configuration
and creates a driver, failing when no URL is configured.  The created
driver is represented by handle 0; only sharing matters to the claims. -/
def newDbDriver (db : DbContext) : Except String (DriverParms × Nat) :=
  let dp : DriverParms := { useBigInt := db.dbDriverParms.useBigInt <|> some true }
  match db.dbParms.dbUrl with
  | none => .error "dbParms.dbUrl must be specified"
  | some u => if u.length = 0 then .error "dbParms.dbUrl must be specified" else .ok (dp, 0)

/-- The custom inspect function newDbContext attaches to the merged parms:
it renders every field unchanged except the password, which shows as the
fixed mask when set and as null when absent. -/
def inspectShownDbParms (p : DbParms) : DbParms :=
  { p with dbPass := p.dbPass.map (fun _ => "****") }

/-- newDbContext: merge parms with override precedence, derive the session
configuration (target database name first, then the base session parms,
then the override session parms), inherit or create the driver, and apply
the access-mode resolver before returning. -/
def newDbContext (dbContext : DbContextOrParms) (overrides : Option DbContextOrParms) :
    Except String DbContext :=
  let o := overrides.getD {}
  let dbParmsOverrides := o.dbParms.getD o.bare
  let dbParms := mergeParms (dbContext.dbParms.getD dbContext.bare) dbParmsOverrides
  let db0 : DbContext :=
    { dbParms := dbParms
      dbDriverParms := mergeDriverParms (dbContext.dbDriverParms.getD {}) (o.dbDriverParms.getD {})
      dbSessionParms :=
        mergeSessionParms
          (mergeSessionParms { database := dbParms.dbName } (dbContext.dbSessionParms.getD {}))
          (o.dbSessionParms.getD {})
      dbTxnParms := mergeTxnParms (dbContext.dbTxnParms.getD {}) (o.dbTxnParms.getD {})
      dbDriver := o.dbDriver <|> dbContext.dbDriver
      dbSession := none
      dbTxn := none
      dbMarks := o.dbMarks <|> dbContext.dbMarks
      dbSummary := none }
  match db0.dbDriver with
  | some _ => .ok (setDbSessionParmsDefaultAccessMode db0)
  | none =>
    match newDbDriver db0 with
    | .error e => .error e
    | .ok (dp, drv) =>
      .ok (setDbSessionParmsDefaultAccessMode { db0 with dbDriverParms := dp, dbDriver := some drv })

/-- Set the top-level allowwrite key on an overrides value, mirroring the
object spread the convenience constructors perform on their overrides. -/
def withBareAllowwrite (o : DbContextOrParms) (v : Option Bool) : DbContextOrParms :=
  { o with bare := { o.bare with allowwrite := v } }

/-- newReadonlyDbContext: thin overlay adding allowwrite=false on top of
the overrides before calling the general constructor. -/
def newReadonlyDbContext (db : DbContextOrParms) (overrides : Option DbContextOrParms) :
    Except String DbContext :=
  newDbContext db (some (withBareAllowwrite (overrides.getD {}) (some false)))

/-- newWritableDbContext: thin overlay adding allowwrite=true on top of
the overrides before calling the general constructor. -/
def newWritableDbContext (db : DbContextOrParms) (overrides : Option DbContextOrParms) :
    Except String DbContext :=
  newDbContext db (some (withBareAllowwrite (overrides.getD {}) (some true)))

/-- dbHandleLastBookmarks: store the session's last bookmarks on the
context and stage them into the session configuration for the next
session, unless ignoremarks is set, in which case null is staged.  The
marks argument stands for the value of session.lastBookmarks(). -/
def dbHandleLastBookmarks (db : DbContext) (marks : Option (List String)) : DbContext :=
  { db with
    dbMarks := marks
    dbSessionParms :=
      { db.dbSessionParms with
        bookmarks := if flagSet db.dbParms.ignoremarks then none else marks } }

/-- dbForgetBookmarks: clear stored bookmarks and the staged session
bookmark configuration. -/
def dbForgetBookmarks (db : DbContext) : DbContext :=
  { db with dbMarks := none, dbSessionParms := { db.dbSessionParms with bookmarks := none } }

/-- flatQueryStatistics: keep only the positive-valued statistics entries
from the raw stats map of a statistics object. -/
def flatQueryStatistics (s : Option QueryStats) : List (String × Int) :=
  ((s.bind QueryStats.rawStats).getD []).filter (fun e => 0 < e.2)

/-- cleanupDbSummary: flatten both statistics categories of a raw summary. -/
def cleanupDbSummary (s : DbRawSummary) : CleanSummary :=
  { counters := flatQueryStatistics s.counters
    updateStatistics := flatQueryStatistics s.updateStatistics }

/-- A result record: an ordered field-name to value mapping. -/
def DbRecord : Type := List (String × Nat)
deriving DecidableEq, Repr

/-- rec.toObject, or a projection onto the requested fields in the
requested order when onlyFields is given. -/
def objectFromDbResultRecord (rec : DbRecord) (onlyFields : Option (List String)) : DbRecord :=
  match onlyFields with
  | none => rec
  | some fs => fs.map (fun f => (f, (rec.lookup f).getD 0))

/-- A raw driver query result: records plus a raw summary. -/
structure DbResultRaw where
  records : Option (List DbRecord) := none
  summary : Option DbRawSummary := none
deriving DecidableEq, Repr

/-- The value reaching dbResultsAsObjects: either a raw result or an
already-normalized sequence of plain mappings (the shape check in the
source tests for records and summary counters being present). -/
inductive DbResultsOrObjects where
  | raw (r : DbResultRaw)
  | objs (l : List DbRecord)
deriving DecidableEq, Repr

/-- dbResultsAsObjects: pass already-converted values through unchanged;
otherwise convert each record to an object, store the cleaned summary on
the context, and return the object sequence. -/
def dbResultsAsObjects (db : DbContext) (dbResults : DbResultsOrObjects)
    (onlyFields : Option (List String)) : DbContext × DbResultsOrObjects :=
  match dbResults with
  | .objs l => (db, .objs l)
  | .raw r =>
    match r.records, r.summary with
    | some records, some summary =>
      match summary.counters with
      | some _ =>
        ({ db with dbSummary := some (cleanupDbSummary summary) },
          .objs (records.map (fun rec => objectFromDbResultRecord rec onlyFields)))
      | none => (db, .raw r)
    | _, _ => (db, .raw r)

/-- JSON value produced for a 64-bit integer: a numeric literal or a
string of decimal digits. -/
inductive JsonIntRepr where
  | num (n : Int)
  | str (s : String)
deriving DecidableEq, Repr

/-- MAX_SAFE_INTEGER as an arbitrary-precision integer. -/
def MaxSafeInt_bigint : Int := 9007199254740991

/-- MIN_SAFE_INTEGER as an arbitrary-precision integer. -/
def MinSafeInt_bigint : Int := -9007199254740991

/-- The toJSON helper setBigintHelperJson installs on BigInt: values
outside the exact-double range serialize as their decimal-digit string,
values inside it as a numeric literal. -/
def bigintToJSON (n : Int) : JsonIntRepr :=
  if n > MaxSafeInt_bigint ∨ n < MinSafeInt_bigint then .str (toString n) else .num n

mutual

/-- Query descriptor: literal text (whose backend run may fail) or a
composable function, modelled as the sequence of executor re-invocations
it performs on the context it receives. -/
inductive DbQuery where
  | literal (fails : Bool)
  | comp (subs : DbQueryList)

/-- Sequences of nested descriptors a composable function issues. -/
inductive DbQueryList where
  | nil
  | cons (head : DbQuery) (tail : DbQueryList)

end

/-- The value a unit of work returns: nothing (empty composable body), a
single-shot session run result, or a transactional run result. -/
inductive RunRes where
  | empty
  | fromSession (sid : Nat)
  | fromTxn (tid : Nat)
deriving DecidableEq, Repr

/-- Backend calls the executor performs, in order: opening a session,
a single-shot session run, invoking the read- or write-transaction
wrapper (which begins a transaction), running inside the open
transaction, capturing bookmarks, and clearing the transaction handle. -/
inductive Ev where
  | sessionOpen (sid : Nat)
  | sessionRun (sid : Nat)
  | txnBegin (mode : AccessMode) (tid : Nat)
  | txnRun (tid : Nat)
  | capture
  | txnClear
deriving DecidableEq, Repr

/-- Result of one executor invocation: the returned or propagated value,
the context afterwards, the next fresh backend handle, and the trace. -/
structure ExecOut where
  res : Except Unit RunRes
  db : DbContext
  gen : Nat
  evs : List Ev
deriving Repr

/-- The access mode the managed path selects: the read wrapper exactly
when the session default access mode is READ, else the write wrapper. -/
def accessModeFor (db : DbContext) : AccessMode :=
  if db.dbSessionParms.defaultAccessMode = some .READ then .READ else .WRITE

mutual

/-- executeCypherRawResults: open a session if none is open; a literal
descriptor on a fresh session runs single-shot against the session with a
bookmark capture on success; otherwise, when no transaction is active,
the managed read- or write-transaction wrapper begins a transaction,
stores its handle on the context, runs the descriptor body, and
unconditionally captures bookmarks and clears the handle; when a
transaction is already active the descriptor runs directly against it.
The env argument supplies session.lastBookmarks() per session handle. -/
def executeCypherRawResults (env : Nat → Option (List String)) (db : DbContext) (gen : Nat)
    (q : DbQuery) : ExecOut :=
  match q with
  | .literal fails =>
    match db.dbSession with
    | none =>
      let sid := gen
      let db1 := { db with dbSession := some sid }
      if fails then
        { res := .error (), db := db1, gen := gen + 1,
          evs := [.sessionOpen sid, .sessionRun sid] }
      else
        { res := .ok (.fromSession sid)
          db := dbHandleLastBookmarks db1 (env sid)
          gen := gen + 1
          evs := [.sessionOpen sid, .sessionRun sid, .capture] }
    | some _ =>
      match db.dbTxn with
      | some tid =>
        { res := if fails then .error () else .ok (.fromTxn tid),
          db := db, gen := gen, evs := [.txnRun tid] }
      | none =>
        let tid := gen
        let mode := accessModeFor db
        let db1 := { db with dbTxn := some tid }
        let db2 := { dbHandleLastBookmarks db1 (db1.dbSession.bind env) with dbTxn := none }
        { res := if fails then .error () else .ok (.fromTxn tid)
          db := db2, gen := gen + 1
          evs := [.txnBegin mode tid, .txnRun tid, .capture, .txnClear] }
  | .comp subs =>
    let opened : DbContext × Nat × List Ev :=
      match db.dbSession with
      | none => ({ db with dbSession := some gen }, gen + 1, [Ev.sessionOpen gen])
      | some _ => (db, gen, [])
    let db1 := opened.1
    let gen1 := opened.2.1
    let pre := opened.2.2
    match db1.dbTxn with
    | some _ =>
      let o := runComposableSubqueries env db1 gen1 subs
      { o with evs := pre ++ o.evs }
    | none =>
      let tid := gen1
      let mode := accessModeFor db1
      let o := runComposableSubqueries env { db1 with dbTxn := some tid } (gen1 + 1) subs
      let db2 := { dbHandleLastBookmarks o.db (o.db.dbSession.bind env) with dbTxn := none }
      { res := o.res, db := db2, gen := o.gen,
        evs := pre ++ [Ev.txnBegin mode tid] ++ o.evs ++ [Ev.capture, Ev.txnClear] }
termination_by structural q

/-- Body of a composable descriptor: it re-invokes the executor on each
nested descriptor in turn on the same context, stopping at the first
failure, which propagates. -/
def runComposableSubqueries (env : Nat → Option (List String)) (db : DbContext) (gen : Nat)
    (l : DbQueryList) : ExecOut :=
  match l with
  | .nil => { res := .ok .empty, db := db, gen := gen, evs := [] }
  | .cons q rest =>
    let o := executeCypherRawResults env db gen q
    match o.res with
    | .error e => { res := .error e, db := o.db, gen := o.gen, evs := o.evs }
    | .ok _ =>
      match rest with
      | .nil => o
      | .cons _ _ =>
        let o2 := runComposableSubqueries env o.db o.gen rest
        { o2 with evs := o.evs ++ o2.evs }
termination_by structural l

end

/-- What the backend delivers to a streaming subscription: an optional
field-name list, the records in arrival order, whether the stream ends in
an error, the last bookmarks of the hosting session, and the raw summary
delivered on completion. -/
structure StreamScript where
  keys : Option (List String) := none
  records : List Nat := []
  fails : Bool := false
  marks : List String := []
  rawSummary : DbRawSummary := {}
deriving DecidableEq, Repr

/-- Observable streaming events: the observer callbacks interleaved with
the bookkeeping the termination handlers perform (bookmark capture on the
hosting context and session close). -/
inductive StEv where
  | obsKeys (ks : List String)
  | obsNext (v : Nat)
  | obsCompleted
  | obsError
  | captureOn (sid : Nat)
  | sessionClosed (sid : Nat)
deriving DecidableEq, Repr

/-- True exactly for a bookmark-capture streaming event. -/
def StEv.isCaptureOn : StEv → Bool
  | .captureOn _ => true
  | _ => false

/-- True exactly for a session-close streaming event. -/
def StEv.isSessionClosed : StEv → Bool
  | .sessionClosed _ => true
  | _ => false

/-- Result of a streaming execution: the settled value, the caller
context afterwards, the hosting context afterwards, whether the host was
a derived sibling, and the event trace. -/
structure StreamOut where
  res : Except Unit CleanSummary
  db : DbContext
  host : DbContext
  hostIsSibling : Bool
  evs : List StEv
deriving Repr

/-- The subscription part of streaming execution: emit the key callback,
then one callback per record; on error close the sibling session (only)
and deliver the error; on completion capture bookmarks on the hosting
context, store the cleaned summary, copy bookmarks and summary back to
the caller and close the session when the host is a derived sibling, and
deliver the summary. -/
def streamRun (db ourDb : DbContext) (sibling : Bool) (sid : Nat) (script : StreamScript) :
    StreamOut :=
  let keyEvs := match script.keys with
    | some ks => [StEv.obsKeys ks]
    | none => []
  let nextEvs := script.records.map StEv.obsNext
  if script.fails then
    let closeEvs := if sibling then [StEv.sessionClosed sid] else []
    { res := .error (), db := if sibling then db else ourDb, host := ourDb,
      hostIsSibling := sibling,
      evs := keyEvs ++ nextEvs ++ closeEvs ++ [StEv.obsError] }
  else
    let summ := cleanupDbSummary script.rawSummary
    let host2 := { dbHandleLastBookmarks ourDb (some script.marks) with dbSummary := some summ }
    if sibling then
      { res := .ok summ,
        db := { db with dbMarks := host2.dbMarks, dbSummary := host2.dbSummary },
        host := host2, hostIsSibling := true,
        evs := keyEvs ++ nextEvs ++ [StEv.captureOn sid, StEv.sessionClosed sid, StEv.obsCompleted] }
    else
      { res := .ok summ, db := host2, host := host2, hostIsSibling := false,
        evs := keyEvs ++ nextEvs ++ [StEv.captureOn sid, StEv.obsCompleted] }

/-- executeAndStreamCypherResults: when the caller context has an active
transaction, derive a fresh sibling context to host the stream; open a
session on the hosting context if none is open (a missing driver is the
crash the source would hit there); then run the subscription. -/
def executeAndStreamCypherResults (db : DbContext) (gen : Nat) (script : StreamScript) :
    Except String StreamOut :=
  let hostE : Except String DbContext :=
    if db.dbTxn.isSome then newDbContext (.ofContext db) none else .ok db
  match hostE with
  | .error e => .error e
  | .ok ourDb0 =>
    let sibling := db.dbTxn.isSome
    match ourDb0.dbSession with
    | none =>
      match db.dbDriver with
      | none => .error "dbDriver is null"
      | some _ => .ok (streamRun db { ourDb0 with dbSession := some gen } sibling gen script)
    | some sid => .ok (streamRun db ourDb0 sibling sid script)

/-- A minimal context with an existing driver, used as a concrete sample. -/
def baseCtx : DbContext :=
  { dbParms := {}, dbDriverParms := {}, dbSessionParms := {}, dbTxnParms := {},
    dbDriver := some 0, dbSession := none, dbTxn := none, dbMarks := none, dbSummary := none }

/-- Unwrap a context construction known to succeed, with a fallback. -/
def okCtxOr (e : Except String DbContext) (fallback : DbContext) : DbContext :=
  match e with
  | .ok c => c
  | .error _ => fallback

/-- The access-mode resolver changes only the session default access mode. -/
theorem setDefaultAccessMode_dbParms (db : DbContext) :
    (setDbSessionParmsDefaultAccessMode db).dbParms = db.dbParms := by
  unfold setDbSessionParmsDefaultAccessMode
  split
  · rfl
  · split <;> rfl

/-- The access-mode resolver leaves the staged session bookmarks alone. -/
theorem setDefaultAccessMode_bookmarks (db : DbContext) :
    (setDbSessionParmsDefaultAccessMode db).dbSessionParms.bookmarks =
      db.dbSessionParms.bookmarks := by
  unfold setDbSessionParmsDefaultAccessMode
  split
  · rfl
  · split <;> rfl

/-- Merging with an empty override record keeps every parms field. -/
theorem mergeParms_empty_right (a : DbParms) : mergeParms a {} = a := rfl

/-- A context built from bare parms with no overrides keeps those parms. -/
theorem newDbContext_bare_parms (b : DbParms) (c : DbContext)
    (h : newDbContext { bare := b } none = .ok c) : c.dbParms = b := by
  cases hu : b.dbUrl with
  | none =>
    simp [newDbContext, newDbDriver, mergeParms, hu] at h
  | some u =>
    by_cases hl : u.length = 0
    · simp [newDbContext, newDbDriver, mergeParms, hu, hl] at h
    · simp [newDbContext, newDbDriver, mergeParms, hu, hl] at h
      rw [← h, setDefaultAccessMode_dbParms]
      rw [← hu]

/-- The inspect view of parms with a password present masks it. -/
theorem inspectShownDbParms_mask (p : DbParms) (h : p.dbPass ≠ none) :
    inspectShownDbParms p = { p with dbPass := some "****" } := by
  obtain ⟨a, ha⟩ := Option.ne_none_iff_exists.mp h
  simp [inspectShownDbParms, ← ha]

/-- Sample context with both access flags set. -/
def ctxBothFlags : DbContext :=
  { baseCtx with dbParms := { allowwrite := some true, readonly := some true } }

/-- Sample context with only the write-enabled flag set. -/
def ctxAllowwrite : DbContext :=
  { baseCtx with dbParms := { allowwrite := some true } }

/-- Sample context with only the read-only flag set. -/
def ctxReadonly : DbContext :=
  { baseCtx with dbParms := { readonly := some true } }

/-- C3 counterexample: with both flags set, the access-mode resolver
yields WRITE, not READ, so the read-only flag does not dominate. -/
theorem accessMode_readonly_dominates_counterexample :
    (setDbSessionParmsDefaultAccessMode ctxBothFlags).dbSessionParms.defaultAccessMode =
      some AccessMode.WRITE ∧
    (setDbSessionParmsDefaultAccessMode ctxBothFlags).dbSessionParms.defaultAccessMode ≠
      some AccessMode.READ := by
  constructor
  · rfl
  · decide

/-- C3 (amended): the resolver checks the write-enabled flag first and
yields write mode whenever it is set, even when read-only is also set;
with write-enabled unset, a set read-only flag yields read mode; with
both unset the context is returned untouched (backend default applies). -/
theorem setDbSessionParmsDefaultAccessMode_spec (db : DbContext) :
    (flagSet db.dbParms.allowwrite = true →
      (setDbSessionParmsDefaultAccessMode db).dbSessionParms.defaultAccessMode =
        some AccessMode.WRITE) ∧
    (flagSet db.dbParms.allowwrite = false → flagSet db.dbParms.readonly = true →
      (setDbSessionParmsDefaultAccessMode db).dbSessionParms.defaultAccessMode =
        some AccessMode.READ) ∧
    (flagSet db.dbParms.allowwrite = false → flagSet db.dbParms.readonly = false →
      setDbSessionParmsDefaultAccessMode db = db) := by
  refine ⟨?_, ?_, ?_⟩
  · intro h
    simp [setDbSessionParmsDefaultAccessMode, h]
  · intro h1 h2
    simp [setDbSessionParmsDefaultAccessMode, h1, h2]
  · intro h1 h2
    simp [setDbSessionParmsDefaultAccessMode, h1, h2]

/-- Witness for the amended C3 statement at concrete flag combinations. -/
theorem setDbSessionParmsDefaultAccessMode_spec_witness :
    (setDbSessionParmsDefaultAccessMode ctxAllowwrite).dbSessionParms.defaultAccessMode =
      some AccessMode.WRITE ∧
    (setDbSessionParmsDefaultAccessMode ctxReadonly).dbSessionParms.defaultAccessMode =
      some AccessMode.READ ∧
    setDbSessionParmsDefaultAccessMode baseCtx = baseCtx :=
  ⟨(setDbSessionParmsDefaultAccessMode_spec ctxAllowwrite).1 rfl,
   (setDbSessionParmsDefaultAccessMode_spec ctxReadonly).2.1 rfl rfl,
   (setDbSessionParmsDefaultAccessMode_spec baseCtx).2.2 rfl rfl⟩

/-- C8: the result-normalization step passes an already-normalized
sequence of plain field-name to value mappings through unchanged, and
leaves the context (its stored summary included) untouched. -/
theorem dbResultsAsObjects_idempotent_on_normalized (db : DbContext) (l : List DbRecord)
    (onlyFields : Option (List String)) :
    dbResultsAsObjects db (.objs l) onlyFields = (db, .objs l) := rfl

/-- C9: a value within the exact-integer range serializes as a numeric
literal equal to the value, a value outside it as the string of its exact
decimal digits; in particular 9007199254740993 becomes the string and 42
the number. -/
theorem bigintToJSON_spec (n : Int) :
    (MinSafeInt_bigint ≤ n → n ≤ MaxSafeInt_bigint → bigintToJSON n = .num n) ∧
    (MaxSafeInt_bigint < n → bigintToJSON n = .str (toString n)) ∧
    (n < MinSafeInt_bigint → bigintToJSON n = .str (toString n)) ∧
    bigintToJSON 9007199254740993 = .str "9007199254740993" ∧
    bigintToJSON 42 = .num 42 := by
  refine ⟨?_, ?_, ?_, ?_, ?_⟩
  · intro h1 h2
    unfold MinSafeInt_bigint at h1
    unfold MaxSafeInt_bigint at h2
    unfold bigintToJSON MaxSafeInt_bigint MinSafeInt_bigint
    rw [if_neg (by omega)]
  · intro h
    unfold MaxSafeInt_bigint at h
    unfold bigintToJSON MaxSafeInt_bigint MinSafeInt_bigint
    rw [if_pos (by omega)]
  · intro h
    unfold MinSafeInt_bigint at h
    unfold bigintToJSON MaxSafeInt_bigint MinSafeInt_bigint
    rw [if_pos (by omega)]
  · rfl
  · rfl

/-- Witness for C9 at concrete in-range and out-of-range values. -/
theorem bigintToJSON_spec_witness :
    bigintToJSON 42 = .num 42 ∧
    bigintToJSON (-9007199254740992) = .str "-9007199254740992" :=
  ⟨(bigintToJSON_spec 42).1 (by decide) (by decide),
   (bigintToJSON_spec (-9007199254740992)).2.2.1 (by decide)⟩

/-- C10: the inspect view the context factory attaches to the merged
parms is identical for two configurations differing only in their
non-null passwords; a present password renders as the fixed mask and an
absent one as null. -/
theorem password_never_in_inspect (b1 b2 : DbParms) (c1 c2 : DbContext)
    (hp1 : b1.dbPass ≠ none) (hp2 : b2.dbPass ≠ none)
    (heq : { b1 with dbPass := none } = { b2 with dbPass := none })
    (h1 : newDbContext { bare := b1 } none = .ok c1)
    (h2 : newDbContext { bare := b2 } none = .ok c2) :
    inspectShownDbParms c1.dbParms = inspectShownDbParms c2.dbParms ∧
    (inspectShownDbParms c1.dbParms).dbPass = some "****" ∧
    (inspectShownDbParms { b1 with dbPass := none }).dbPass = none := by
  rw [newDbContext_bare_parms b1 c1 h1, newDbContext_bare_parms b2 c2 h2,
    inspectShownDbParms_mask b1 hp1, inspectShownDbParms_mask b2 hp2]
  refine ⟨?_, rfl, rfl⟩
  exact congrArg (fun p => { p with dbPass := some "****" }) heq

/-- First sample parms for the C10 witness. -/
def bW1 : DbParms := { dbUrl := some "neo4j://localhost:7687", dbPass := some "secretA" }

/-- Second sample parms for the C10 witness, differing only in password. -/
def bW2 : DbParms := { dbUrl := some "neo4j://localhost:7687", dbPass := some "secretB" }

/-- Witness for C10 at two concrete configurations. -/
theorem password_never_in_inspect_witness :
    inspectShownDbParms (okCtxOr (newDbContext { bare := bW1 } none) baseCtx).dbParms =
      inspectShownDbParms (okCtxOr (newDbContext { bare := bW2 } none) baseCtx).dbParms ∧
    (inspectShownDbParms (okCtxOr (newDbContext { bare := bW1 } none) baseCtx).dbParms).dbPass =
      some "****" :=
  ⟨(password_never_in_inspect bW1 bW2 _ _ (by decide) (by decide) (by decide) rfl rfl).1,
   (password_never_in_inspect bW1 bW2 _ _ (by decide) (by decide) (by decide) rfl rfl).2.1⟩

/-- One-step unfolding of the composable body on a nonempty sequence. -/
theorem runComposableSubqueries_cons (env : Nat → Option (List String)) (db : DbContext)
    (gen : Nat) (q : DbQuery) (rest : DbQueryList) :
    runComposableSubqueries env db gen (.cons q rest) =
      (let o := executeCypherRawResults env db gen q
       match o.res with
       | .error e => { res := .error e, db := o.db, gen := o.gen, evs := o.evs }
       | .ok _ =>
         match rest with
         | .nil => o
         | .cons _ _ =>
           let o2 := runComposableSubqueries env o.db o.gen rest
           { o2 with evs := o.evs ++ o2.evs }) := rfl

mutual

/-- With an open session and an active transaction on the context, the
executor leaves the context and handle generator unchanged and performs
only runs against the active transaction handle. -/
theorem exec_in_txn (env : Nat → Option (List String)) (s t : Nat) (db : DbContext) (gen : Nat)
    (q : DbQuery) (hs : db.dbSession = some s) (ht : db.dbTxn = some t) :
    (executeCypherRawResults env db gen q).db = db ∧
    (executeCypherRawResults env db gen q).gen = gen ∧
    ∀ e ∈ (executeCypherRawResults env db gen q).evs, e = Ev.txnRun t := by
  cases q with
  | literal fails =>
    simp [executeCypherRawResults, hs, ht]
  | comp subs =>
    have ih := execSubs_in_txn env s t db gen subs hs ht
    simpa [executeCypherRawResults, hs, ht] using ih

/-- With an open session and an active transaction on the context, a
composable body likewise leaves the context and generator unchanged and
performs only runs against the active transaction handle. -/
theorem execSubs_in_txn (env : Nat → Option (List String)) (s t : Nat) (db : DbContext)
    (gen : Nat) (l : DbQueryList) (hs : db.dbSession = some s) (ht : db.dbTxn = some t) :
    (runComposableSubqueries env db gen l).db = db ∧
    (runComposableSubqueries env db gen l).gen = gen ∧
    ∀ e ∈ (runComposableSubqueries env db gen l).evs, e = Ev.txnRun t := by
  cases l with
  | nil => simp [runComposableSubqueries]
  | cons q rest =>
    obtain ⟨hdb, hgen, hevs⟩ := exec_in_txn env s t db gen q hs ht
    cases hres : (executeCypherRawResults env db gen q).res with
    | error e =>
      refine ⟨?_, ?_, ?_⟩ <;> simp [runComposableSubqueries, hres, hdb, hgen]
      exact hevs
    | ok r =>
      cases rest with
      | nil =>
        refine ⟨?_, ?_, ?_⟩ <;> simp [runComposableSubqueries, hres, hdb, hgen]
        exact hevs
      | cons q2 rest2 =>
        obtain ⟨hdb2, hgen2, hevs2⟩ :=
          execSubs_in_txn env s t (executeCypherRawResults env db gen q).db
            (executeCypherRawResults env db gen q).gen (DbQueryList.cons q2 rest2)
            (by rw [hdb]; exact hs) (by rw [hdb]; exact ht)
        rw [runComposableSubqueries_cons]
        simp only [hres]
        refine ⟨?_, ?_, ?_⟩
        · rw [hdb2, hdb]
        · rw [hgen2, hgen]
        · simp only [List.mem_append]
          intro e he
          cases he with
          | inl h1 => exact hevs e h1
          | inr h2 => exact hevs2 e h2

end

/-- Environment with no bookmark information, used by concrete samples. -/
def envNone : Nat → Option (List String) := fun _ => none

/-- Sample context with an open session and an active transaction. -/
def dbInTxn : DbContext := { baseCtx with dbSession := some 0, dbTxn := some 7 }

/-- Sample nested composable descriptor: a composable invoking a literal
and another composable, which invokes a literal again. -/
def qNested : DbQuery :=
  .comp (.cons (.literal false) (.cons (.comp (.cons (.literal false) .nil)) .nil))

/-- C1: while a managed transaction is active on the context (its handle
non-null, its session open), re-entering the executor with any descriptor
at any composition depth never invokes the read- or write-transaction
wrapper: every backend call in the trace is a run against the existing
transaction handle, and the context comes back unchanged. -/
theorem executor_never_begins_second_txn (env : Nat → Option (List String)) (db : DbContext)
    (gen : Nat) (q : DbQuery) (s t : Nat) (hs : db.dbSession = some s)
    (ht : db.dbTxn = some t) :
    (∀ m tid, Ev.txnBegin m tid ∉ (executeCypherRawResults env db gen q).evs) ∧
    (∀ e ∈ (executeCypherRawResults env db gen q).evs, e = Ev.txnRun t) ∧
    (executeCypherRawResults env db gen q).db = db := by
  obtain ⟨hdb, _, hevs⟩ := exec_in_txn env s t db gen q hs ht
  refine ⟨?_, hevs, hdb⟩
  intro m tid hmem
  have := hevs _ hmem
  simp at this

/-- Witness for C1 at a concrete in-transaction context and a concrete
nested composable descriptor. -/
theorem executor_never_begins_second_txn_witness :
    (executeCypherRawResults envNone dbInTxn 3 qNested).db = dbInTxn ∧
    Ev.txnBegin AccessMode.WRITE 3 ∉ (executeCypherRawResults envNone dbInTxn 3 qNested).evs :=
  ⟨(executor_never_begins_second_txn envNone dbInTxn 3 qNested 0 7 rfl rfl).2.2,
   (executor_never_begins_second_txn envNone dbInTxn 3 qNested 0 7 rfl rfl).1
     AccessMode.WRITE 3⟩

/-- Capturing bookmarks never touches the transaction handle. -/
theorem dbHandleLastBookmarks_dbTxn (db : DbContext) (marks : Option (List String)) :
    (dbHandleLastBookmarks db marks).dbTxn = db.dbTxn := rfl

/-- C2: starting from a context with no active transaction, any executor
invocation ends with the transaction handle cleared back to null, and
whenever the managed wrapper was entered (a transaction was begun), the
trace contains the bookmark capture and the handle-clearing step - the
guaranteed-release discipline, independent of success or failure of the
body (the returned value is the propagated body outcome either way). -/
theorem managed_txn_guaranteed_release (env : Nat → Option (List String)) (db : DbContext)
    (gen : Nat) (q : DbQuery) (h : db.dbTxn = none) :
    (executeCypherRawResults env db gen q).db.dbTxn = none ∧
    (∀ m t, Ev.txnBegin m t ∈ (executeCypherRawResults env db gen q).evs →
      Ev.capture ∈ (executeCypherRawResults env db gen q).evs ∧
      Ev.txnClear ∈ (executeCypherRawResults env db gen q).evs) := by
  cases q with
  | literal fails =>
    cases hs : db.dbSession with
    | none =>
      cases fails with
      | false =>
        refine ⟨?_, ?_⟩
        · simp [executeCypherRawResults, hs, dbHandleLastBookmarks, h]
        · intro m t hmem
          simp [executeCypherRawResults, hs] at hmem
      | true =>
        refine ⟨?_, ?_⟩
        · simp [executeCypherRawResults, hs, h]
        · intro m t hmem
          simp [executeCypherRawResults, hs] at hmem
    | some s =>
      refine ⟨?_, ?_⟩
      · simp [executeCypherRawResults, hs, h]
      · intro m t _
        constructor <;> simp [executeCypherRawResults, hs, h]
  | comp subs =>
    cases hs : db.dbSession with
    | none =>
      refine ⟨?_, ?_⟩
      · simp [executeCypherRawResults, hs, h]
      · intro m t _
        constructor <;> simp [executeCypherRawResults, hs, h]
    | some s =>
      refine ⟨?_, ?_⟩
      · simp [executeCypherRawResults, hs, h]
      · intro m t _
        constructor <;> simp [executeCypherRawResults, hs, h]

/-- Sample context with an open session and no active transaction. -/
def dbSessionOpen : DbContext := { baseCtx with dbSession := some 0 }

/-- Witness for C2: a failing managed unit of work propagates the failure
yet the trace captures bookmarks and clears the handle, and the final
context holds no transaction. -/
theorem managed_txn_guaranteed_release_witness :
    (executeCypherRawResults envNone dbSessionOpen 3 (.literal true)).res = .error () ∧
    (executeCypherRawResults envNone dbSessionOpen 3 (.literal true)).db.dbTxn = none ∧
    Ev.capture ∈ (executeCypherRawResults envNone dbSessionOpen 3 (.literal true)).evs ∧
    Ev.txnClear ∈ (executeCypherRawResults envNone dbSessionOpen 3 (.literal true)).evs :=
  ⟨rfl,
   (managed_txn_guaranteed_release envNone dbSessionOpen 3 (.literal true) rfl).1,
   ((managed_txn_guaranteed_release envNone dbSessionOpen 3 (.literal true) rfl).2
     AccessMode.WRITE 3 (by decide)).1,
   ((managed_txn_guaranteed_release envNone dbSessionOpen 3 (.literal true) rfl).2
     AccessMode.WRITE 3 (by decide)).2⟩

/-- C4 counterexample: a literal descriptor on a context whose session is
already open, with no transaction active, is not run single-shot against
the session: the managed write-transaction wrapper begins a transaction
instead, and no session run appears in the trace. -/
theorem literal_fast_path_counterexample :
    (executeCypherRawResults envNone dbSessionOpen 1 (.literal false)).evs =
      [Ev.txnBegin AccessMode.WRITE 1, Ev.txnRun 1, Ev.capture, Ev.txnClear] ∧
    Ev.txnBegin AccessMode.WRITE 1 ∈
      (executeCypherRawResults envNone dbSessionOpen 1 (.literal false)).evs ∧
    Ev.sessionRun 0 ∉ (executeCypherRawResults envNone dbSessionOpen 1 (.literal false)).evs ∧
    Ev.sessionRun 1 ∉ (executeCypherRawResults envNone dbSessionOpen 1 (.literal false)).evs :=
  ⟨rfl, by decide, by decide, by decide⟩

/-- C4 (amended): a literal descriptor on a context with no open session
(hence no active transaction) takes the fast path: the executor opens a
session, runs the query single-shot against it, captures bookmarks, and
returns the raw run result; the managed wrapper never appears in the
trace.  A literal on an already-open session goes through the managed
wrapper instead (see the counterexample). -/
theorem literal_fast_path (env : Nat → Option (List String)) (db : DbContext) (gen : Nat)
    (hs : db.dbSession = none) (ht : db.dbTxn = none) :
    executeCypherRawResults env db gen (.literal false) =
      { res := .ok (.fromSession gen),
        db := dbHandleLastBookmarks { db with dbSession := some gen } (env gen),
        gen := gen + 1,
        evs := [.sessionOpen gen, .sessionRun gen, .capture] } ∧
    ∀ m t, Ev.txnBegin m t ∉ (executeCypherRawResults env db gen (.literal false)).evs := by
  have he : executeCypherRawResults env db gen (.literal false) =
      { res := .ok (.fromSession gen),
        db := dbHandleLastBookmarks { db with dbSession := some gen } (env gen),
        gen := gen + 1,
        evs := [.sessionOpen gen, .sessionRun gen, .capture] } := by
    simp [executeCypherRawResults, hs]
  refine ⟨he, ?_⟩
  intro m t
  rw [he]
  simp

/-- Witness for the amended C4 at a concrete fresh context. -/
theorem literal_fast_path_witness :
    (executeCypherRawResults envNone baseCtx 0 (.literal false)).evs =
      [Ev.sessionOpen 0, Ev.sessionRun 0, Ev.capture] ∧
    Ev.txnBegin AccessMode.WRITE 0 ∉ (executeCypherRawResults envNone baseCtx 0 (.literal false)).evs :=
  ⟨congrArg ExecOut.evs (literal_fast_path envNone baseCtx 0 rfl rfl).1,
   (literal_fast_path envNone baseCtx 0 rfl rfl).2 AccessMode.WRITE 0⟩

/-- The resolver yields write mode whenever the write-enabled flag is set. -/
theorem setDefaultAccessMode_write_of (db : DbContext)
    (h : flagSet db.dbParms.allowwrite = true) :
    (setDbSessionParmsDefaultAccessMode db).dbSessionParms.defaultAccessMode =
      some AccessMode.WRITE := by
  simp [setDbSessionParmsDefaultAccessMode, h]

/-- The resolver yields read mode when only the read-only flag is set. -/
theorem setDefaultAccessMode_read_of (db : DbContext)
    (h1 : flagSet db.dbParms.allowwrite = false) (h2 : flagSet db.dbParms.readonly = true) :
    (setDbSessionParmsDefaultAccessMode db).dbSessionParms.defaultAccessMode =
      some AccessMode.READ := by
  simp [setDbSessionParmsDefaultAccessMode, h1, h2]

/-- The resolver leaves the context untouched when neither flag is set. -/
theorem setDefaultAccessMode_id_of (db : DbContext)
    (h1 : flagSet db.dbParms.allowwrite = false) (h2 : flagSet db.dbParms.readonly = false) :
    setDbSessionParmsDefaultAccessMode db = db := by
  simp [setDbSessionParmsDefaultAccessMode, h1, h2]

/-- Characterization of a successful context construction: the result is
the resolver applied to the merged record, for some driver data. -/
theorem newDbContext_ok_char (base : DbContextOrParms) (o : Option DbContextOrParms)
    (c : DbContext) (hc : newDbContext base o = .ok c) :
    ∃ dp drv,
      c = setDbSessionParmsDefaultAccessMode
        { dbParms := mergeParms (base.dbParms.getD base.bare)
            ((o.getD {}).dbParms.getD (o.getD {}).bare)
          dbDriverParms := dp
          dbSessionParms :=
            mergeSessionParms
              (mergeSessionParms
                { database := (mergeParms (base.dbParms.getD base.bare)
                    ((o.getD {}).dbParms.getD (o.getD {}).bare)).dbName }
                (base.dbSessionParms.getD {}))
              ((o.getD {}).dbSessionParms.getD {})
          dbTxnParms := mergeTxnParms (base.dbTxnParms.getD {}) ((o.getD {}).dbTxnParms.getD {})
          dbDriver := some drv
          dbSession := none
          dbTxn := none
          dbMarks := (o.getD {}).dbMarks <|> base.dbMarks
          dbSummary := none } := by
  unfold newDbContext at hc
  dsimp only at hc
  split at hc
  next val heq =>
    refine ⟨mergeDriverParms (base.dbDriverParms.getD {}) ((o.getD {}).dbDriverParms.getD {}),
      val, ?_⟩
    simp only [Except.ok.injEq] at hc
    rw [← hc, ← heq]
  next heq =>
    split at hc
    next e heq2 => simp at hc
    next dp2 drv2 heq2 =>
      refine ⟨dp2, drv2, ?_⟩
      simp only [Except.ok.injEq] at hc
      rw [← hc]

/-- Parms of a successfully constructed context: the override-precedence
merge of the base parms and the effective parms overrides. -/
theorem newDbContext_ok_dbParms (base : DbContextOrParms) (o : Option DbContextOrParms)
    (c : DbContext) (hc : newDbContext base o = .ok c) :
    c.dbParms = mergeParms (base.dbParms.getD base.bare)
      ((o.getD {}).dbParms.getD (o.getD {}).bare) := by
  obtain ⟨dp, drv, hch⟩ := newDbContext_ok_char base o c hc
  rw [hch, setDefaultAccessMode_dbParms]

/-- Staged session bookmarks of a successfully constructed context: the
override bookmarks if set, else the base session configuration bookmarks. -/
theorem newDbContext_ok_bookmarks (base : DbContextOrParms) (o : Option DbContextOrParms)
    (c : DbContext) (hc : newDbContext base o = .ok c) :
    c.dbSessionParms.bookmarks =
      (((o.getD {}).dbSessionParms.getD {}).bookmarks <|>
        (base.dbSessionParms.getD {}).bookmarks) := by
  obtain ⟨dp, drv, hch⟩ := newDbContext_ok_char base o c hc
  rw [hch, setDefaultAccessMode_bookmarks]
  cases h2 : (base.dbSessionParms.getD {}).bookmarks <;>
    simp [mergeSessionParms, h2]

/-- The session default access mode of a constructed context whose merged
flags are both unset: the override mode if set, else the base mode. -/
theorem newDbContext_ok_mode_unresolved (base : DbContextOrParms) (o : Option DbContextOrParms)
    (c : DbContext) (hc : newDbContext base o = .ok c)
    (h1 : flagSet c.dbParms.allowwrite = false) (h2 : flagSet c.dbParms.readonly = false) :
    c.dbSessionParms.defaultAccessMode =
      (((o.getD {}).dbSessionParms.getD {}).defaultAccessMode <|>
        (base.dbSessionParms.getD {}).defaultAccessMode) := by
  obtain ⟨dp, drv, hch⟩ := newDbContext_ok_char base o c hc
  have h1b : flagSet c.dbParms.allowwrite = false := h1
  have h2b : flagSet c.dbParms.readonly = false := h2
  rw [hch, setDefaultAccessMode_dbParms] at h1b h2b
  rw [hch, setDefaultAccessMode_id_of _ h1b h2b]
  cases h3 : (base.dbSessionParms.getD {}).defaultAccessMode <;>
    simp [mergeSessionParms, h3]

/-- The session default access mode of a constructed context whose merged
write-enabled flag is set is write mode. -/
theorem newDbContext_ok_mode_write (base : DbContextOrParms) (o : Option DbContextOrParms)
    (c : DbContext) (hc : newDbContext base o = .ok c)
    (h : flagSet c.dbParms.allowwrite = true) :
    c.dbSessionParms.defaultAccessMode = some AccessMode.WRITE := by
  obtain ⟨dp, drv, hch⟩ := newDbContext_ok_char base o c hc
  have hb : flagSet c.dbParms.allowwrite = true := h
  rw [hch, setDefaultAccessMode_dbParms] at hb
  rw [hch]
  exact setDefaultAccessMode_write_of _ hb

/-- The session default access mode of a constructed context whose merged
write-enabled flag is unset and read-only flag is set is read mode. -/
theorem newDbContext_ok_mode_read (base : DbContextOrParms) (o : Option DbContextOrParms)
    (c : DbContext) (hc : newDbContext base o = .ok c)
    (h1 : flagSet c.dbParms.allowwrite = false) (h2 : flagSet c.dbParms.readonly = true) :
    c.dbSessionParms.defaultAccessMode = some AccessMode.READ := by
  obtain ⟨dp, drv, hch⟩ := newDbContext_ok_char base o c hc
  have h1b : flagSet c.dbParms.allowwrite = false := h1
  have h2b : flagSet c.dbParms.readonly = true := h2
  rw [hch, setDefaultAccessMode_dbParms] at h1b h2b
  rw [hch]
  exact setDefaultAccessMode_read_of _ h1b h2b

/-- C5 (amended): a derivation whose overrides stage no bookmarks gives
the child exactly the bookmarks staged in the parent session
configuration, as a snapshot taken at derivation time (the child is a
fresh value; later captures on the parent produce a new parent and leave
it untouched); the ignore-bookmarks flag acts at capture, not at
derivation: a capture on a flag-set parent stages nothing for future
derivations, while a capture on a flag-clear parent stages the captured
marks. -/
theorem derived_context_bookmark_snapshot (p : DbContext) (o : Option DbContextOrParms)
    (c : DbContext) (m : Option (List String))
    (hb : ((o.getD {}).dbSessionParms.getD {}).bookmarks = none)
    (hc : newDbContext (.ofContext p) o = .ok c) :
    c.dbSessionParms.bookmarks = p.dbSessionParms.bookmarks ∧
    (flagSet p.dbParms.ignoremarks = true →
      (dbHandleLastBookmarks p m).dbSessionParms.bookmarks = none) ∧
    (flagSet p.dbParms.ignoremarks = false →
      (dbHandleLastBookmarks p m).dbSessionParms.bookmarks = m) := by
  refine ⟨?_, ?_, ?_⟩
  · have hbm := newDbContext_ok_bookmarks (.ofContext p) o c hc
    rw [hb] at hbm
    simpa [DbContextOrParms.ofContext] using hbm
  · intro hflag
    simp [dbHandleLastBookmarks, hflag]
  · intro hflag
    simp [dbHandleLastBookmarks, hflag]

/-- Parent context that captured bookmarks b1 with the flag unset. -/
def pc5b : DbContext := dbHandleLastBookmarks dbSessionOpen (some ["b1"])

/-- Context derived from pc5b with an ignore-bookmarks override: its flag
is set, yet it inherits the staged bookmarks. -/
def pc5cCtx : DbContext :=
  okCtxOr (newDbContext (.ofContext pc5b) (some { bare := { ignoremarks := some true } })) baseCtx

/-- C5 counterexample: pc5cCtx has the ignore-bookmarks flag set and
current bookmark set b1 (both stored and staged), and a context derived
from it still inherits b1 - the parent bookmark set IS inherited even
though the ignore-bookmarks flag is set, because derivation never
consults the flag. -/
theorem derived_bookmarks_ignoremarks_counterexample :
    pc5cCtx.dbParms.ignoremarks = some true ∧
    pc5cCtx.dbMarks = some ["b1"] ∧
    pc5cCtx.dbSessionParms.bookmarks = some ["b1"] ∧
    (okCtxOr (newDbContext (.ofContext pc5cCtx) none) baseCtx).dbSessionParms.bookmarks =
      some ["b1"] :=
  ⟨rfl, rfl, rfl, rfl⟩

/-- Witness for the amended C5 at concrete parents with the flag unset
(pc5b) and set (pc5cCtx). -/
theorem derived_context_bookmark_snapshot_witness :
    (okCtxOr (newDbContext (.ofContext pc5b) none) baseCtx).dbSessionParms.bookmarks =
      pc5b.dbSessionParms.bookmarks ∧
    (dbHandleLastBookmarks pc5cCtx (some ["x"])).dbSessionParms.bookmarks = none ∧
    (dbHandleLastBookmarks pc5b (some ["x"])).dbSessionParms.bookmarks = some ["x"] :=
  ⟨(derived_context_bookmark_snapshot pc5b none
      (okCtxOr (newDbContext (.ofContext pc5b) none) baseCtx) (some ["x"]) rfl rfl).1,
   (derived_context_bookmark_snapshot pc5cCtx none
      (okCtxOr (newDbContext (.ofContext pc5cCtx) none) baseCtx) (some ["x"]) rfl rfl).2.1 rfl,
   (derived_context_bookmark_snapshot pc5b none
      (okCtxOr (newDbContext (.ofContext pc5b) none) baseCtx) (some ["x"]) rfl rfl).2.2 rfl⟩

/-- C6 (amended): the writable convenience constructor always yields a
context in write mode; the read-only convenience constructor only clears
the write-enabled flag, so its result is in read mode exactly when the
merged read-only flag is set, and otherwise keeps the inherited or
backend-default mode; both are the general constructor applied to the
overrides with the corresponding write-enabled key added (which the
general constructor drops when the overrides carry an explicit dbParms
object, whence the hypothesis). -/
theorem convenience_ctor_access_modes (base : DbContextOrParms) (o : Option DbContextOrParms)
    (cw cr : DbContext)
    (ho : (o.getD {}).dbParms = none)
    (hw : newWritableDbContext base o = .ok cw)
    (hr : newReadonlyDbContext base o = .ok cr) :
    cw.dbSessionParms.defaultAccessMode = some AccessMode.WRITE ∧
    cr.dbParms.allowwrite = some false ∧
    (flagSet cr.dbParms.readonly = true →
      cr.dbSessionParms.defaultAccessMode = some AccessMode.READ) ∧
    (flagSet cr.dbParms.readonly = false →
      cr.dbSessionParms.defaultAccessMode =
        (((o.getD {}).dbSessionParms.getD {}).defaultAccessMode <|>
          (base.dbSessionParms.getD {}).defaultAccessMode)) ∧
    newWritableDbContext base o =
      newDbContext base (some (withBareAllowwrite (o.getD {}) (some true))) ∧
    newReadonlyDbContext base o =
      newDbContext base (some (withBareAllowwrite (o.getD {}) (some false))) := by
  have hw2 : newDbContext base (some (withBareAllowwrite (o.getD {}) (some true))) = .ok cw := hw
  have hr2 : newDbContext base (some (withBareAllowwrite (o.getD {}) (some false))) = .ok cr := hr
  have hwparms := newDbContext_ok_dbParms base (some (withBareAllowwrite (o.getD {}) (some true))) cw hw2
  have hrparms := newDbContext_ok_dbParms base (some (withBareAllowwrite (o.getD {}) (some false))) cr hr2
  have hwflag : flagSet cw.dbParms.allowwrite = true := by
    rw [hwparms]
    simp [mergeParms, withBareAllowwrite, ho, flagSet]
  have hrflag : cr.dbParms.allowwrite = some false := by
    rw [hrparms]
    simp [mergeParms, withBareAllowwrite, ho]
  refine ⟨?_, hrflag, ?_, ?_, rfl, rfl⟩
  · exact newDbContext_ok_mode_write base _ cw hw2 hwflag
  · intro hro
    refine newDbContext_ok_mode_read base _ cr hr2 ?_ hro
    rw [hrflag]
    rfl
  · intro hro
    have hmode := newDbContext_ok_mode_unresolved base
      (some (withBareAllowwrite (o.getD {}) (some false))) cr hr2 (by rw [hrflag]; rfl) hro
    simpa [withBareAllowwrite] using hmode

/-- Bare configuration with only a connection URL, for the C6 samples. -/
def parmsC6 : DbContextOrParms := { bare := { dbUrl := some "neo4j://localhost:7687" } }

/-- A writable context built from the bare configuration. -/
def c6w : DbContext := okCtxOr (newWritableDbContext parmsC6 none) baseCtx

/-- A context built by the read-only convenience constructor on top of
the writable context. -/
def c6r : DbContext := okCtxOr (newReadonlyDbContext (.ofContext c6w) none) baseCtx

/-- C6 counterexample: the read-only convenience constructor applied to a
writable context (whose configuration has no read-only flag) returns a
context whose session default access mode is WRITE, not READ. -/
theorem readonly_ctor_not_read_mode_counterexample :
    c6w.dbSessionParms.defaultAccessMode = some AccessMode.WRITE ∧
    c6r.dbParms.allowwrite = some false ∧
    c6r.dbParms.readonly = none ∧
    c6r.dbSessionParms.defaultAccessMode = some AccessMode.WRITE ∧
    c6r.dbSessionParms.defaultAccessMode ≠ some AccessMode.READ :=
  ⟨rfl, rfl, rfl, rfl, by decide⟩

/-- Witness for the amended C6 at the concrete bare configuration: the
writable constructor yields WRITE mode, the read-only constructor clears
the write-enabled flag, and with no read-only flag in the merged
configuration the mode stays the inherited one (here: unset). -/
theorem convenience_ctor_access_modes_witness :
    (okCtxOr (newWritableDbContext parmsC6 none) baseCtx).dbSessionParms.defaultAccessMode =
      some AccessMode.WRITE ∧
    (okCtxOr (newReadonlyDbContext parmsC6 none) baseCtx).dbParms.allowwrite = some false ∧
    (okCtxOr (newReadonlyDbContext parmsC6 none) baseCtx).dbSessionParms.defaultAccessMode =
      none :=
  ⟨(convenience_ctor_access_modes parmsC6 none
      (okCtxOr (newWritableDbContext parmsC6 none) baseCtx)
      (okCtxOr (newReadonlyDbContext parmsC6 none) baseCtx) rfl rfl rfl).1,
   (convenience_ctor_access_modes parmsC6 none
      (okCtxOr (newWritableDbContext parmsC6 none) baseCtx)
      (okCtxOr (newReadonlyDbContext parmsC6 none) baseCtx) rfl rfl rfl).2.1,
   (convenience_ctor_access_modes parmsC6 none
      (okCtxOr (newWritableDbContext parmsC6 none) baseCtx)
      (okCtxOr (newReadonlyDbContext parmsC6 none) baseCtx) rfl rfl rfl).2.2.2.1 rfl⟩

/-- The access-mode resolver leaves the session handle alone. -/
theorem setDefaultAccessMode_dbSession (db : DbContext) :
    (setDbSessionParmsDefaultAccessMode db).dbSession = db.dbSession := by
  unfold setDbSessionParmsDefaultAccessMode
  split
  · rfl
  · split <;> rfl

/-- A freshly constructed context has no open session. -/
theorem newDbContext_ok_dbSession (base : DbContextOrParms) (o : Option DbContextOrParms)
    (c : DbContext) (hc : newDbContext base o = .ok c) : c.dbSession = none := by
  obtain ⟨dp, drv, hch⟩ := newDbContext_ok_char base o c hc
  rw [hch, setDefaultAccessMode_dbSession]

/-- C7 (amended): on successful completion of a stream, bookmarks are
captured on the hosting context, and when the host is a derived sibling
(the caller had an active transaction) its bookmarks and summary are
copied back onto the caller context; the sibling session is closed on
either kind of termination while the caller session - its own, when it
hosted the stream directly - is never closed and remains open; on error
termination no bookmark capture and no copy-back happen, and the error is
the settled outcome. -/
theorem stream_termination_discipline (db : DbContext) (gen : Nat) (script : StreamScript)
    (out : StreamOut) (h : executeAndStreamCypherResults db gen script = .ok out) :
    (script.fails = false → StEv.captureOn (out.host.dbSession.getD 0) ∈ out.evs) ∧
    (script.fails = false → db.dbTxn.isSome = true →
      out.db.dbMarks = out.host.dbMarks ∧ out.db.dbSummary = out.host.dbSummary) ∧
    (db.dbTxn.isSome = true →
      StEv.sessionClosed (out.host.dbSession.getD 0) ∈ out.evs ∧
      out.db.dbSession = db.dbSession) ∧
    (db.dbTxn.isSome = false →
      out.evs.all (fun e => ! e.isSessionClosed) = true ∧ out.db.dbSession.isSome = true) ∧
    (script.fails = true →
      out.res = .error () ∧ out.evs.all (fun e => ! e.isCaptureOn) = true ∧
      out.db.dbMarks = db.dbMarks ∧ out.db.dbSummary = db.dbSummary) := by
  unfold executeAndStreamCypherResults at h
  cases htx : db.dbTxn.isSome with
  | true =>
    simp only [htx, if_pos] at h
    cases hh : newDbContext (.ofContext db) none with
    | error e => rw [hh] at h; simp at h
    | ok ourDb0 =>
      rw [hh] at h
      dsimp only at h
      have hsess : ourDb0.dbSession = none := newDbContext_ok_dbSession _ _ _ hh
      rw [hsess] at h
      cases hd : db.dbDriver with
      | none => rw [hd] at h; simp at h
      | some d =>
        rw [hd] at h
        simp only [Except.ok.injEq] at h
        subst h
        cases hf : script.fails <;>
          cases hk : script.keys <;>
            simp [streamRun, hf, hk, htx, dbHandleLastBookmarks, StEv.isCaptureOn,
              StEv.isSessionClosed, List.mem_map]
  | false =>
    simp only [htx, Bool.false_eq_true, if_neg, not_false_eq_true] at h
    cases hs : db.dbSession with
    | none =>
      rw [hs] at h
      cases hd : db.dbDriver with
      | none => rw [hd] at h; simp at h
      | some d =>
        rw [hd] at h
        simp only [Except.ok.injEq] at h
        subst h
        cases hf : script.fails <;>
          cases hk : script.keys <;>
            simp [streamRun, hf, hk, htx, dbHandleLastBookmarks, StEv.isCaptureOn,
              StEv.isSessionClosed, List.mem_map]
    | some sid =>
      rw [hs] at h
      simp only [Except.ok.injEq] at h
      subst h
      cases hf : script.fails <;>
        cases hk : script.keys <;>
          simp [streamRun, hf, hk, htx, hs, dbHandleLastBookmarks, StEv.isCaptureOn,
            StEv.isSessionClosed, List.mem_map]

/-- Caller context with an active transaction and old bookmarks, hosting
streams through a derived sibling. -/
def dbC7 : DbContext :=
  { baseCtx with dbSession := some 0, dbTxn := some 1, dbMarks := some ["old"] }

/-- A stream that completes normally with bookmarks m1. -/
def scriptOk : StreamScript :=
  { keys := some ["k"], records := [10, 20], fails := false, marks := ["m1"], rawSummary := {} }

/-- A stream that terminates in an error. -/
def scriptErr : StreamScript :=
  { keys := some ["k"], records := [10], fails := true, marks := ["m1"], rawSummary := {} }

/-- Fallback streaming outcome for the concrete extractions. -/
def streamOutFallback : StreamOut :=
  { res := .error (), db := dbC7, host := dbC7, hostIsSibling := false, evs := [] }

/-- Unwrap a streaming execution known to succeed, with a fallback. -/
def okStreamOr (e : Except String StreamOut) (fallback : StreamOut) : StreamOut :=
  match e with
  | .ok o => o
  | .error _ => fallback

/-- The completed streaming outcome on the transactional caller. -/
def outC7ok : StreamOut :=
  okStreamOr (executeAndStreamCypherResults dbC7 5 scriptOk) streamOutFallback

/-- The erroring streaming outcome on the transactional caller. -/
def outC7err : StreamOut :=
  okStreamOr (executeAndStreamCypherResults dbC7 5 scriptErr) streamOutFallback

/-- C7 counterexample: on error termination of a sibling-hosted stream,
no bookmark capture happens on the hosting context and nothing is copied
back onto the caller; only the sibling session close and the error
callback occur.  The claim says bookmarks are captured and copied back on
every termination, completion or error. -/
theorem stream_error_no_capture_counterexample :
    executeAndStreamCypherResults dbC7 5 scriptErr = .ok outC7err ∧
    outC7err.evs = [StEv.obsKeys ["k"], StEv.obsNext 10, StEv.sessionClosed 5, StEv.obsError] ∧
    outC7err.evs.all (fun e => ! e.isCaptureOn) = true ∧
    outC7err.host.dbMarks ≠ some ["m1"] ∧
    outC7err.db.dbMarks = some ["old"] ∧
    outC7err.db.dbSummary = none :=
  ⟨rfl, rfl, rfl, by decide, rfl, rfl⟩

/-- Witness for the amended C7 at the concrete completed sibling stream:
capture happened on the host, the bookmarks and summary were copied back,
the sibling session was closed, and the caller session stayed open. -/
theorem stream_termination_discipline_witness :
    StEv.captureOn 5 ∈ outC7ok.evs ∧
    outC7ok.db.dbMarks = outC7ok.host.dbMarks ∧
    outC7ok.db.dbSummary = outC7ok.host.dbSummary ∧
    StEv.sessionClosed 5 ∈ outC7ok.evs ∧
    outC7ok.db.dbSession = some 0 :=
  ⟨(stream_termination_discipline dbC7 5 scriptOk outC7ok rfl).1 rfl,
   ((stream_termination_discipline dbC7 5 scriptOk outC7ok rfl).2.1 rfl rfl).1,
   ((stream_termination_discipline dbC7 5 scriptOk outC7ok rfl).2.1 rfl rfl).2,
   ((stream_termination_discipline dbC7 5 scriptOk outC7ok rfl).2.2.1 rfl).1,
   ((stream_termination_discipline dbC7 5 scriptOk outC7ok rfl).2.2.1 rfl).2⟩
